import Mathlib

/-!
Shallow embedding of `src/precipitation_analyzer.py`.

The script reads tabular files, classifies which columns hold year data
(by looking for a "day"/"days" header, with fallback start index 2),
averages the numeric cells of each year column, appends a summary row to
each table, and accumulates per-year records into one global summary.

Modelling conventions:
* numeric cell values are rationals (`ℚ`) instead of IEEE doubles;
* a cell is text, a number, or empty/missing (pandas `NaN`);
* Python exceptions become `Option`: `none` on the raising path;
* the Python dict `average_row_data` is an insertion-ordered association
  list with overwrite-on-update, exactly mirroring dict assignment;
* `pd.to_numeric(.., errors := coerce)` on a text cell is modelled by a
  decimal parser `parseDecimal`; `int(col_name)` by `pyInt`, which mirrors
  Python `int` on strings: strip whitespace, optional sign, decimal digits
  (PEP 515 underscore separators are not modelled);
* `calendar.isleap` uses `Int.emod`, which agrees with Python `%`.
-/

namespace Precip

/-- A cell of a table: text, a numeric value, or empty/missing (NaN). -/
inductive Cell where
  | text (s : String)
  | num (q : ℚ)
  | empty
deriving DecidableEq, Repr, Inhabited

/-- A table: ordered column labels plus rows of cells, positionally aligned
with the labels (`df` in the source). -/
structure Table where
  columns : List String
  rows : List (List Cell)
deriving DecidableEq, Repr, Inhabited

/-- Python whitespace characters stripped by `int(...)` (ASCII range). -/
def isPySpace (c : Char) : Bool :=
  c.toNat = 32 || c.toNat = 9 || c.toNat = 10 ||
  c.toNat = 11 || c.toNat = 12 || c.toNat = 13

/-- Digit-string to number, most significant digit first. -/
def digitsToNat (ds : List Char) : Nat :=
  ds.foldl (fun n c => 10 * n + (c.toNat - 48)) 0

/-- `some (digitsToNat ds)` when `ds` is a nonempty all-digit string. -/
def parseDigits (ds : List Char) : Option Nat :=
  if !ds.isEmpty && ds.all Char.isDigit then some (digitsToNat ds) else none

/-- Strip leading Python whitespace. -/
def dropPySpace (cs : List Char) : List Char := cs.dropWhile isPySpace

/-- `int(s)` on the character list of `s`: strip whitespace on both ends,
accept an optional `+`/`-` sign followed by one or more decimal digits;
`none` models the `ValueError` raised on any other input. -/
def pyIntCore (cs : List Char) : Option Int :=
  let t := (dropPySpace ((dropPySpace cs).reverse)).reverse
  match t with
  | [] => none
  | c :: rest =>
    if c = '+' then (parseDigits rest).map (fun n => (n : Int))
    else if c = '-' then (parseDigits rest).map (fun n => -(n : Int))
    else (parseDigits (c :: rest)).map (fun n => (n : Int))

/-- `year = int(col_name)` (line 70): `none` is the `ValueError` branch. -/
def pyInt (s : String) : Option Int := pyIntCore s.data

/-- `is_leap_year` (lines 5-7): `calendar.isleap(year)`. -/
def is_leap_year (year : Int) : Bool :=
  year % 4 = 0 && (year % 100 ≠ 0 || year % 400 = 0)

/-- Decimal parsing of an unsigned number: integer part, optional dot,
fraction part; at least one digit overall. -/
def parseUnsignedDecimal (cs : List Char) : Option ℚ :=
  let ip := cs.takeWhile (fun c => c ≠ '.')
  let rest := cs.dropWhile (fun c => c ≠ '.')
  match rest with
  | [] =>
    if !ip.isEmpty && ip.all Char.isDigit then some (digitsToNat ip : ℚ) else none
  | _ :: fp =>
    if !(ip.isEmpty && fp.isEmpty) && ip.all Char.isDigit && fp.all Char.isDigit then
      some ((digitsToNat ip : ℚ) + (digitsToNat fp : ℚ) / ((10 : ℚ) ^ fp.length))
    else none

/-- Coercion of a text cell to a number, as `pd.to_numeric(.., errors :=
coerce)` does for strings: optional surrounding whitespace, optional sign,
decimal literal; `none` is the `NaN` produced for non-numeric text. -/
def parseDecimal (s : String) : Option ℚ :=
  let t := (dropPySpace ((dropPySpace s.data).reverse)).reverse
  match t with
  | [] => none
  | c :: rest =>
    if c = '+' then parseUnsignedDecimal rest
    else if c = '-' then (parseUnsignedDecimal rest).map (fun q => -q)
    else parseUnsignedDecimal (c :: rest)

/-- Numeric coercion of one cell (`pd.to_numeric` + `dropna`, line 73):
`none` means the cell is dropped. -/
def cellToNumeric (c : Cell) : Option ℚ :=
  match c with
  | Cell.num q => some q
  | Cell.empty => none
  | Cell.text s => parseDecimal s

/-- `str.lower()` on a label, character by character (ASCII case map). -/
def lowerAscii (s : String) : String := String.mk (s.data.map Char.toLower)

/-- Lowercased-label comparison against the markers (lines 52-53). -/
def isDayMarker (name : String) : Bool :=
  lowerAscii name = "day" || lowerAscii name = "days"

/-- The classifier (lines 48-61): scan labels in order for the first
"day"/"days" marker and return its index plus one; fallback `2` when no
label matches. -/
def start_col_index_for_years (labels : List String) : Nat :=
  match labels.findIdx? isDayMarker with
  | some i => i + 1
  | none => 2

/-- One entry of `current_file_averages` (lines 76-80). -/
structure SummaryRecord where
  year : Int
  average : ℚ
  leapYear : Bool
deriving DecidableEq, Repr

/-- One entry of `summary_data` (lines 113-118). -/
structure GlobalRecord where
  file : String
  year : Int
  averageData : ℚ
  isLeapYear : Bool
deriving DecidableEq, Repr

/-- The cells of column `j` of a table, top to bottom. -/
def colCells (t : Table) (j : Nat) : List Cell :=
  t.rows.map (fun r => r.getD j Cell.empty)

/-- `df[col_name]` followed by `pd.to_numeric`: selection is by label, so a
label that does not occur exactly once raises (`KeyError`, or a `DataFrame`
that `pd.to_numeric` rejects); `none` models that exception, caught at
lines 89-91. -/
def dfGetCol (t : Table) (name : String) : Option (List Cell) :=
  if t.columns.count name = 1 then some (colCells t (t.columns.indexOf name))
  else none

/-- `column_data.mean()` over the surviving cells (lines 73-75): `none`
when no cell survives coercion (`column_data.empty`). -/
def averageColumn (cells : List Cell) : Option ℚ :=
  let vals := cells.filterMap cellToNumeric
  if vals.isEmpty then none
  else some (vals.sum / (vals.length : ℚ))

/-- The loop body for one column (lines 64-96): the value stored into
`average_row_data[col_name]` and the record (if any) appended to
`current_file_averages`. -/
def colOutcome (t : Table) (start i : Nat) (name : String) :
    Option ℚ × Option SummaryRecord :=
  if start ≤ i then
    match pyInt name with
    | none => (none, none)
    | some year =>
      match dfGetCol t name with
      | none => (none, none)
      | some cells =>
        match averageColumn cells with
        | none => (none, none)
        | some avg => (some avg, some ⟨year, avg, is_leap_year year⟩)
  else (none, none)

/-- Dict assignment `d[k] = v`: overwrite the binding of `k` when present,
else append it. -/
def updateAssoc (d : List (String × Option ℚ)) (k : String) (v : Option ℚ) :
    List (String × Option ℚ) :=
  match d with
  | [] => [(k, v)]
  | (k', v') :: rest =>
    if k' = k then (k', v) :: rest else (k', v') :: updateAssoc rest k v

/-- Dict lookup `d.get(k)`. -/
def lookupAssoc (d : List (String × Option ℚ)) (k : String) : Option (Option ℚ) :=
  match d with
  | [] => none
  | (k', v') :: rest => if k' = k then some v' else lookupAssoc rest k

/-- The final state of `average_row_data` after the column loop
(lines 64-96). -/
def buildRowDict (t : Table) (start : Nat) : List (String × Option ℚ) :=
  t.columns.enum.foldl
    (fun d p => updateAssoc d p.2 (colOutcome t start p.1 p.2).1) []

/-- `current_file_averages` after the column loop: records in column
order, one per successfully averaged year column. -/
def fileRecords (t : Table) (start : Nat) : List SummaryRecord :=
  t.columns.enum.filterMap (fun p => (colOutcome t start p.1 p.2).2)

/-- Render a dict value as a cell of the appended row: a stored average
becomes a number, a stored `None` (or a missing key) becomes an empty
cell (`NaN` when pandas builds the row). -/
def cellOfDictValue (o : Option (Option ℚ)) : Cell :=
  match o with
  | some (some q) => Cell.num q
  | _ => Cell.empty

/-- The appended average row, aligned to the original columns
(`pd.DataFrame([average_row_data], columns := df.columns)`, line 100). -/
def summaryRow (t : Table) : List Cell :=
  let start := start_col_index_for_years t.columns
  let d := buildRowDict t start
  t.columns.map (fun name => cellOfDictValue (lookupAssoc d name))

/-- Processing of one table (lines 42-101): the augmented table
(`df_with_average`) and the file's records. -/
def processFile (t : Table) : Table × List SummaryRecord :=
  (⟨t.columns, t.rows ++ [summaryRow t]⟩,
   fileRecords t (start_col_index_for_years t.columns))

/-- One directory entry presented to the batch loop: its file name, the
table its reader yields (`none` when reading raises), and whether writing
the processed file succeeds (`false` when `to_excel`/`to_csv` raises). -/
structure BatchFile where
  name : String
  content : Option Table
  writeOk : Bool
deriving DecidableEq, Repr

/-- `s.endswith(suffix)` on the character lists. -/
def strEndsWith (s suffix : String) : Bool :=
  List.isSuffixOf suffix.data s.data

/-- `filename.endswith((xlsx, xls, csv))` (line 31). -/
def hasTableExt (s : String) : Bool :=
  strEndsWith s ".xlsx" || strEndsWith s ".xls" || strEndsWith s ".csv"

/-- State of the batch loop: processed files written so far (name and
augmented table) and the accumulated `summary_data`. -/
def BatchState : Type := List (String × Table) × List GlobalRecord

/-- One iteration of the file loop (lines 29-121): skip non-table
extensions; a read failure skips the file; a write failure (raising after
processing, before the records are appended) also drops the file's records;
otherwise the augmented table is written and the records are accumulated,
tagged with the file name. -/
def batchStep (st : BatchState) (f : BatchFile) : BatchState :=
  if hasTableExt f.name then
    match f.content with
    | none => st
    | some t =>
      let (aug, recs) := processFile t
      if f.writeOk then
        (st.1 ++ [(f.name, aug)],
         st.2 ++ recs.map (fun r => ⟨f.name, r.year, r.average, r.leapYear⟩))
      else st
  else st

/-- The whole batch loop over the directory listing, in enumeration
order. -/
def runBatch (files : List BatchFile) : BatchState :=
  files.foldl batchStep ([], [])

/-- Fixed name of the aggregate output (line 126). -/
def summaryFileName : String := "all_files_years_and_averages.csv"

/-- Column labels of the aggregate table, in dict-insertion order
(lines 113-118). -/
def summaryColumns : List String := ["File", "Year", "Average Data", "Is Leap Year"]

/-- One row of the aggregate table (text, integer, number, boolean as
rendered to CSV). -/
def globalRecordRow (r : GlobalRecord) : List Cell :=
  [Cell.text r.file, Cell.num (r.year : ℚ), Cell.num r.averageData,
   Cell.text (if r.isLeapYear then "True" else "False")]

/-- The summary file written after the loop (lines 124-130): `none` when
`summary_data` is empty, otherwise the fixed file name and the aggregate
table with one row per accumulated record, in accumulation order. -/
def batchSummaryFile (files : List BatchFile) : Option (String × Table) :=
  let recs := (runBatch files).2
  if recs.isEmpty then none
  else some (summaryFileName, ⟨summaryColumns, recs.map globalRecordRow⟩)

/-! ### Dict and outcome helper lemmas -/

theorem lookupAssoc_updateAssoc (d : List (String × Option ℚ)) (k : String)
    (v : Option ℚ) (name : String) :
    lookupAssoc (updateAssoc d k v) name =
      if k = name then some v else lookupAssoc d name := by
  induction d with
  | nil => simp [updateAssoc, lookupAssoc]
  | cons p rest ih =>
    obtain ⟨k', v'⟩ := p
    rw [updateAssoc]
    by_cases hk : k' = k
    · rw [if_pos hk]
      subst hk
      by_cases hn : k' = name
      · subst hn; simp [lookupAssoc]
      · simp [lookupAssoc, hn]
    · rw [if_neg hk]
      by_cases hn : k' = name
      · subst hn
        have hkn : ¬ (k = k') := fun hh => hk hh.symm
        simp [lookupAssoc, if_neg hkn]
      · simp [lookupAssoc, hn, ih]

/-- If every enumerated column with a given label stores `none` into the
dict, the final dict holds nothing but `none` under that label. -/
theorem lookupAssoc_buildRowDict_none (t : Table) (start : Nat) (name : String)
    (hall : ∀ p ∈ t.columns.enum, p.2 = name →
      (colOutcome t start p.1 p.2).1 = none) :
    lookupAssoc (buildRowDict t start) name = none ∨
      lookupAssoc (buildRowDict t start) name = some none := by
  rw [buildRowDict]
  have main : ∀ (l : List (Nat × String)) (d : List (String × Option ℚ)),
      (∀ p ∈ l, p.2 = name → (colOutcome t start p.1 p.2).1 = none) →
      (lookupAssoc d name = none ∨ lookupAssoc d name = some none) →
      lookupAssoc (l.foldl
          (fun d p => updateAssoc d p.2 (colOutcome t start p.1 p.2).1) d) name
          = none ∨
        lookupAssoc (l.foldl
          (fun d p => updateAssoc d p.2 (colOutcome t start p.1 p.2).1) d) name
          = some none := by
    intro l
    induction l with
    | nil => intro d _ hd; exact hd
    | cons p l ih =>
      intro d hl hd
      rw [List.foldl_cons]
      refine ih _ (fun q hq hqn => hl q (List.mem_cons_of_mem p hq) hqn) ?_
      rw [lookupAssoc_updateAssoc]
      by_cases hp : p.2 = name
      · rw [if_pos hp]
        right
        rw [hl p (List.mem_cons_self p l) hp]
      · rw [if_neg hp]
        exact hd
  exact main t.columns.enum []
    (fun p hp hpn => hall p hp hpn) (Or.inl rfl)

theorem colOutcome_of_lt (t : Table) (start i : Nat) (name : String)
    (h : i < start) : colOutcome t start i name = (none, none) := by
  have : ¬ start ≤ i := by omega
  simp [colOutcome, this]

theorem colOutcome_of_pyInt_none (t : Table) (start i : Nat) (name : String)
    (h : pyInt name = none) : colOutcome t start i name = (none, none) := by
  rw [colOutcome]
  split
  · rw [h]
  · rfl

theorem colOutcome_of_count_ne (t : Table) (start i : Nat) (name : String)
    (h : t.columns.count name ≠ 1) : colOutcome t start i name = (none, none) := by
  rw [colOutcome]
  split
  · cases hy : pyInt name
    · rfl
    · rw [dfGetCol, if_neg h]
  · rfl

theorem colOutcome_of_avg_none (t : Table) (start i : Nat) (name : String)
    (hc : t.columns.count name = 1)
    (h : averageColumn (colCells t (t.columns.indexOf name)) = none) :
    colOutcome t start i name = (none, none) := by
  rw [colOutcome]
  split
  · cases hy : pyInt name
    · rfl
    · rw [dfGetCol, if_pos hc]
      simp [h]
  · rfl

/-- In a list where `name` occurs exactly once, the index of the (unique)
position holding `name` is `indexOf name`. -/
theorem indexOf_eq_of_count_one (l : List String) (name : String) :
    ∀ (i : Nat), i < l.length → l.getD i "" = name → l.count name = 1 →
      l.indexOf name = i := by
  induction l with
  | nil => intro i hi; exact absurd hi (Nat.not_lt_zero i)
  | cons a tl ih =>
    intro i hi hget hc
    rw [List.count_cons] at hc
    cases i with
    | zero =>
      simp only [List.getD_cons_zero] at hget
      rw [List.indexOf_cons]
      simp [hget]
    | succ i =>
      simp only [List.getD_cons_succ] at hget
      have hitl : i < tl.length := by simpa using hi
      have hmem : name ∈ tl := by
        rw [← hget, List.getD_eq_getElem tl "" hitl]
        exact List.getElem_mem hitl
      have hpos : 0 < tl.count name := List.count_pos_iff.mpr hmem
      have hane : ¬ (a = name) := by
        intro ha
        simp [ha] at hc
        omega
      have hctl : tl.count name = 1 := by
        by_cases ha : a = name
        · exact absurd ha hane
        · simpa [ha] using hc
      rw [List.indexOf_cons]
      have : (a == name) = false := by simpa using hane
      rw [this]
      simp [ih i hitl hget hctl]

/-- Decompose membership in `enum`. -/
theorem mem_enum_getD (l : List String) (p : Nat × String) (hp : p ∈ l.enum) :
    p.1 < l.length ∧ l.getD p.1 "" = p.2 := by
  rw [List.mem_enum_iff_getElem?] at hp
  have hlt : p.1 < l.length := by
    by_contra hge
    rw [List.getElem?_eq_none (by omega)] at hp
    exact Option.noConfusion hp
  refine ⟨hlt, ?_⟩
  rw [List.getD_eq_getElem l "" hlt]
  rw [List.getElem?_eq_getElem hlt] at hp
  exact Option.some.inj hp

/-! ### Classifier properties -/

/-- C1: for every ordered sequence of column labels containing at least one
label whose lowercase form is exactly "day" or "days", the classifier
returns `i + 1`, where `i` is the index of the first such label, regardless
of the casing or content of all other labels. -/
theorem classifier_first_day_marker (labels : List String) (i : Nat)
    (h : i < labels.length)
    (hmark : isDayMarker (labels.getD i "") = true)
    (hfirst : ∀ j, j < i → isDayMarker (labels.getD j "") = false) :
    start_col_index_for_years labels = i + 1 := by
  have hfind : labels.findIdx? isDayMarker = some i := by
    rw [List.findIdx?_eq_some_iff_getElem]
    refine ⟨h, ?_, ?_⟩
    · rw [← List.getD_eq_getElem labels "" h]
      exact hmark
    · intro j hj
      have hjl : j < labels.length := Nat.lt_trans hj h
      simp only [Bool.not_eq_true]
      rw [← List.getD_eq_getElem labels "" hjl]
      exact hfirst j hj
  simp [start_col_index_for_years, hfind]

/-- Witness for C1: in `["ID", "Name", "DAY", "2000"]` the marker first
occurs at index 2, and the classifier returns 3. -/
theorem classifier_first_day_marker_witness :
    start_col_index_for_years ["ID", "Name", "DAY", "2000"] = 3 :=
  classifier_first_day_marker ["ID", "Name", "DAY", "2000"] 2 (by decide)
    (by decide)
    (by intro j hj; interval_cases j <;> decide)

/-- C2: for every ordered sequence of column labels in which no label's
lowercase form equals "day" or "days", the classifier returns the fallback
value 2; for such a table with fewer than 3 columns the returned index is
at or past the end of the column sequence and no year columns are averaged
(the table contributes no records). -/
theorem classifier_fallback_two (t : Table)
    (hnone : ∀ l ∈ t.columns, isDayMarker l = false) :
    start_col_index_for_years t.columns = 2 ∧
      (t.columns.length < 3 →
        t.columns.length ≤ start_col_index_for_years t.columns ∧
          (processFile t).2 = []) := by
  have hfind : t.columns.findIdx? isDayMarker = none :=
    List.findIdx?_eq_none_iff.mpr hnone
  have hstart : start_col_index_for_years t.columns = 2 := by
    simp [start_col_index_for_years, hfind]
  refine ⟨hstart, fun hlen => ⟨by omega, ?_⟩⟩
  show fileRecords t (start_col_index_for_years t.columns) = []
  rw [hstart]
  rw [fileRecords, List.filterMap_eq_nil_iff, List.forall_mem_enum]
  intro i hi
  have : ¬ (2 ≤ i) := by omega
  simp [colOutcome, this]

/-- Witness for C2: a two-column table without a "day"/"days" marker gets
fallback index 2, which is past its last column, and yields no records. -/
theorem classifier_fallback_two_witness :
    start_col_index_for_years (["ID", "Name"] : List String) = 2 ∧
      ((2 : Nat) < 3 →
        (2 : Nat) ≤ start_col_index_for_years (["ID", "Name"] : List String) ∧
          (processFile ⟨["ID", "Name"], [[Cell.num 1, Cell.text "x"]]⟩).2 = []) := by
  have h := classifier_fallback_two ⟨["ID", "Name"], [[Cell.num 1, Cell.text "x"]]⟩
    (by intro l hl; fin_cases hl <;> decide)
  exact h

/-! ### Averager properties -/

/-- C3: each cell of a year column is coerced by decimal parsing, failing
or empty cells are silently discarded, and the average is the sum of the
surviving values divided by their count; on `[1.0, 2.0, "bad", "", 3.0]`
the survivors are `[1, 2, 3]` and the average is 2. -/
theorem averager_mean_of_survivors :
    (∀ cells : List Cell, cells.filterMap cellToNumeric ≠ [] →
      averageColumn cells =
        some ((cells.filterMap cellToNumeric).sum /
          ((cells.filterMap cellToNumeric).length : ℚ))) ∧
      [Cell.num 1, Cell.num 2, Cell.text "bad", Cell.text "",
        Cell.num 3].filterMap cellToNumeric = [1, 2, 3] ∧
      averageColumn [Cell.num 1, Cell.num 2, Cell.text "bad", Cell.text "",
        Cell.num 3] = some 2 := by
  have hfm : [Cell.num 1, Cell.num 2, Cell.text "bad", Cell.text "",
      Cell.num 3].filterMap cellToNumeric = [1, 2, 3] := by decide
  refine ⟨fun cells hne => ?_, hfm, ?_⟩
  · rw [averageColumn]
    simp only [List.isEmpty_iff]
    rw [if_neg hne]
  · simp only [averageColumn, hfm]
    norm_num

/-- Witness for C3: the general mean formula applied to the concrete
column `[1.0, 2.0, "bad", "", 3.0]`. -/
theorem averager_mean_of_survivors_witness :
    averageColumn [Cell.num 1, Cell.num 2, Cell.text "bad", Cell.text "",
        Cell.num 3] =
      some (([Cell.num 1, Cell.num 2, Cell.text "bad", Cell.text "",
          Cell.num 3].filterMap cellToNumeric).sum /
        (([Cell.num 1, Cell.num 2, Cell.text "bad", Cell.text "",
          Cell.num 3].filterMap cellToNumeric).length : ℚ)) :=
  averager_mean_of_survivors.1
    [Cell.num 1, Cell.num 2, Cell.text "bad", Cell.text "", Cell.num 3]
    (by decide)

/-! ### Summary-row cell lemmas -/

theorem summaryRow_getD (t : Table) (i : Nat) (h : i < t.columns.length) :
    (summaryRow t).getD i (Cell.num 0) =
      cellOfDictValue
        (lookupAssoc (buildRowDict t (start_col_index_for_years t.columns))
          (t.columns.getD i "")) := by
  simp only [summaryRow]
  have hlen : i < (t.columns.map (fun name =>
      cellOfDictValue
        (lookupAssoc (buildRowDict t (start_col_index_for_years t.columns))
          name))).length := by
    simpa using h
  rw [List.getD_eq_getElem _ _ hlen, List.getElem_map,
    ← List.getD_eq_getElem t.columns "" h]

theorem cell_empty_of_all_none (t : Table) (i : Nat) (h : i < t.columns.length)
    (hall : ∀ p ∈ t.columns.enum, p.2 = t.columns.getD i "" →
      (colOutcome t (start_col_index_for_years t.columns) p.1 p.2).1 = none) :
    (summaryRow t).getD i (Cell.num 0) = Cell.empty := by
  rw [summaryRow_getD t i h]
  rcases lookupAssoc_buildRowDict_none t (start_col_index_for_years t.columns)
      (t.columns.getD i "") hall with hl | hl <;> rw [hl] <;> rfl

/-- Every dict write under the label of a column whose cells all fail
coercion is `none` (other same-labelled columns raise on `df[name]`). -/
theorem allOccurrences_none_of_avg_none (t : Table) (start i0 : Nat)
    (h0 : i0 < t.columns.length)
    (havg : averageColumn (colCells t i0) = none) :
    ∀ p ∈ t.columns.enum, p.2 = t.columns.getD i0 "" →
      (colOutcome t start p.1 p.2).1 = none := by
  intro p hp hpn
  by_cases hc : t.columns.count (t.columns.getD i0 "") = 1
  · have hidx := indexOf_eq_of_count_one t.columns (t.columns.getD i0 "")
      i0 h0 rfl hc
    rw [hpn, colOutcome_of_avg_none t start p.1 _ hc (by rw [hidx]; exact havg)]
  · rw [hpn, colOutcome_of_count_ne t start p.1 _ hc]

/-- Every dict write under the label of a descriptive column is `none`. -/
theorem allOccurrences_none_of_desc (t : Table) (start i0 : Nat)
    (h0 : i0 < t.columns.length) (hlt : i0 < start) :
    ∀ p ∈ t.columns.enum, p.2 = t.columns.getD i0 "" →
      (colOutcome t start p.1 p.2).1 = none := by
  intro p hp hpn
  by_cases hc : t.columns.count (t.columns.getD i0 "") = 1
  · have hidx := indexOf_eq_of_count_one t.columns (t.columns.getD i0 "")
      i0 h0 rfl hc
    obtain ⟨hp1, hp2⟩ := mem_enum_getD t.columns p hp
    have hidx2 := indexOf_eq_of_count_one t.columns (t.columns.getD i0 "")
      p.1 hp1 (hp2.trans hpn) hc
    have : p.1 = i0 := by omega
    rw [colOutcome_of_lt t start p.1 p.2 (by omega)]
  · rw [hpn, colOutcome_of_count_ne t start p.1 _ hc]

/-! ### Per-column processing properties -/

/-- C4: for a year column in which every cell is non-numeric or empty, the
computed average is undefined (`none`), the column's cell in the appended
summary row is empty, and the column contributes no record. -/
theorem year_column_without_data_skipped (t : Table) (i : Nat)
    (h : i < t.columns.length)
    (hstart : start_col_index_for_years t.columns ≤ i)
    (hbad : ∀ c ∈ colCells t i, cellToNumeric c = none) :
    averageColumn (colCells t i) = none ∧
      (summaryRow t).getD i (Cell.num 0) = Cell.empty ∧
      (colOutcome t (start_col_index_for_years t.columns) i
        (t.columns.getD i "")).2 = none := by
  have havg : averageColumn (colCells t i) = none := by
    rw [averageColumn]
    have : (colCells t i).filterMap cellToNumeric = [] :=
      List.filterMap_eq_nil_iff.mpr hbad
    simp [this]
  refine ⟨havg, ?_, ?_⟩
  · exact cell_empty_of_all_none t i h
      (allOccurrences_none_of_avg_none t _ i h havg)
  · by_cases hc : t.columns.count (t.columns.getD i "") = 1
    · have hidx := indexOf_eq_of_count_one t.columns (t.columns.getD i "")
        i h rfl hc
      rw [colOutcome_of_avg_none t _ i _ hc (by rw [hidx]; exact havg)]
    · rw [colOutcome_of_count_ne t _ i _ hc]

/-- Witness for C4: column "2000" of a three-column table holds only text
and empty cells, so its average is undefined, its summary-row cell is
empty, and it produces no record. -/
theorem year_column_without_data_skipped_witness :
    averageColumn (colCells ⟨["A", "B", "2000"],
        [[Cell.num 1, Cell.num 2, Cell.text "x"],
         [Cell.num 1, Cell.num 2, Cell.empty]]⟩ 2) = none ∧
      (summaryRow ⟨["A", "B", "2000"],
        [[Cell.num 1, Cell.num 2, Cell.text "x"],
         [Cell.num 1, Cell.num 2, Cell.empty]]⟩).getD 2 (Cell.num 0) =
        Cell.empty ∧
      (colOutcome ⟨["A", "B", "2000"],
        [[Cell.num 1, Cell.num 2, Cell.text "x"],
         [Cell.num 1, Cell.num 2, Cell.empty]]⟩
        (start_col_index_for_years ["A", "B", "2000"]) 2
        (["A", "B", "2000"].getD 2 "")).2 = none :=
  year_column_without_data_skipped
    ⟨["A", "B", "2000"],
      [[Cell.num 1, Cell.num 2, Cell.text "x"],
       [Cell.num 1, Cell.num 2, Cell.empty]]⟩ 2
    (by decide) (by decide) (by decide)

/-- A record produced by the column at index `i` is in the file's record
list. -/
theorem mem_fileRecords (t : Table) (start i : Nat) (h : i < t.columns.length)
    (r : SummaryRecord)
    (hout : (colOutcome t start i (t.columns.getD i "")).2 = some r) :
    r ∈ fileRecords t start := by
  rw [fileRecords]
  refine List.mem_filterMap.mpr ⟨(i, t.columns.getD i ""), ?_, hout⟩
  rw [List.mem_enum_iff_getElem?]
  show t.columns[i]? = some (t.columns.getD i "")
  rw [List.getElem?_eq_getElem h, List.getD_eq_getElem t.columns "" h]

/-- The successful branch of the column loop: valid unique year label and
at least one surviving numeric cell. -/
theorem colOutcome_pos (t : Table) (start i : Nat) (h : i < t.columns.length)
    (hstart : start ≤ i) (y : Int)
    (hy : pyInt (t.columns.getD i "") = some y)
    (hc : t.columns.count (t.columns.getD i "") = 1)
    (q : ℚ) (havg : averageColumn (colCells t i) = some q) :
    colOutcome t start i (t.columns.getD i "") =
      (some q, some ⟨y, q, is_leap_year y⟩) := by
  have hidx := indexOf_eq_of_count_one t.columns (t.columns.getD i "") i h rfl hc
  rw [colOutcome, if_pos hstart, hy, dfGetCol, if_pos hc, hidx]
  simp [havg]

/-- C5: for a column at index at or past `yearStartIndex`, a (unique) label
"1999" with data yields a record with year 1999 and leap flag `false`, a
label "2000" yields leap flag `true`, and a label that fails integer
parsing yields no record and an empty summary-row cell. -/
theorem year_label_parse_cases (t : Table) (i : Nat)
    (h : i < t.columns.length)
    (hstart : start_col_index_for_years t.columns ≤ i) :
    (∀ q : ℚ, t.columns.getD i "" = "1999" →
        t.columns.count (t.columns.getD i "") = 1 →
        averageColumn (colCells t i) = some q →
        (colOutcome t (start_col_index_for_years t.columns) i
            (t.columns.getD i "")).2 = some ⟨1999, q, false⟩ ∧
          (⟨1999, q, false⟩ : SummaryRecord) ∈ (processFile t).2) ∧
      (∀ q : ℚ, t.columns.getD i "" = "2000" →
        t.columns.count (t.columns.getD i "") = 1 →
        averageColumn (colCells t i) = some q →
        (colOutcome t (start_col_index_for_years t.columns) i
            (t.columns.getD i "")).2 = some ⟨2000, q, true⟩ ∧
          (⟨2000, q, true⟩ : SummaryRecord) ∈ (processFile t).2) ∧
      (pyInt (t.columns.getD i "") = none →
        colOutcome t (start_col_index_for_years t.columns) i
            (t.columns.getD i "") = (none, none) ∧
          (summaryRow t).getD i (Cell.num 0) = Cell.empty) := by
  refine ⟨fun q hname hc havg => ?_, fun q hname hc havg => ?_, fun hpy => ?_⟩
  · have hy : pyInt (t.columns.getD i "") = some 1999 := by
      rw [hname]; decide
    have hout := colOutcome_pos t (start_col_index_for_years t.columns) i h
      hstart 1999 hy hc q havg
    have hleap : is_leap_year 1999 = false := by decide
    rw [hleap] at hout
    refine ⟨by rw [hout], ?_⟩
    exact mem_fileRecords t _ i h _ (by rw [hout])
  · have hy : pyInt (t.columns.getD i "") = some 2000 := by
      rw [hname]; decide
    have hout := colOutcome_pos t (start_col_index_for_years t.columns) i h
      hstart 2000 hy hc q havg
    have hleap : is_leap_year 2000 = true := by decide
    rw [hleap] at hout
    refine ⟨by rw [hout], ?_⟩
    exact mem_fileRecords t _ i h _ (by rw [hout])
  · refine ⟨colOutcome_of_pyInt_none t _ i _ hpy, ?_⟩
    refine cell_empty_of_all_none t i h (fun p hp hpn => ?_)
    rw [hpn, colOutcome_of_pyInt_none t _ p.1 _ hpy]

/-- Concrete table for the "1999" case: marker at index 1, year data at
index 2. -/
def tbl1999 : Table :=
  ⟨["x", "day", "1999"], [[Cell.empty, Cell.empty, Cell.num 4]]⟩

/-- Concrete table for the "2000" case. -/
def tbl2000 : Table :=
  ⟨["x", "day", "2000"], [[Cell.empty, Cell.empty, Cell.num 6]]⟩

/-- Concrete table for the non-year label case. -/
def tblAbc : Table :=
  ⟨["x", "day", "abc"], [[Cell.empty, Cell.empty, Cell.num 6]]⟩

/-- Witness for C5: the three label cases at concrete tables. -/
theorem year_label_parse_cases_witness :
    ((colOutcome tbl1999 (start_col_index_for_years tbl1999.columns) 2
        (tbl1999.columns.getD 2 "")).2 = some ⟨1999, 4, false⟩ ∧
      (⟨1999, 4, false⟩ : SummaryRecord) ∈ (processFile tbl1999).2) ∧
      ((colOutcome tbl2000 (start_col_index_for_years tbl2000.columns) 2
        (tbl2000.columns.getD 2 "")).2 = some ⟨2000, 6, true⟩ ∧
      (⟨2000, 6, true⟩ : SummaryRecord) ∈ (processFile tbl2000).2) ∧
      (colOutcome tblAbc (start_col_index_for_years tblAbc.columns) 2
        (tblAbc.columns.getD 2 "") = (none, none) ∧
      (summaryRow tblAbc).getD 2 (Cell.num 0) = Cell.empty) := by
  have havgA : averageColumn (colCells tbl1999 2) = some 4 := by
    simp [averageColumn, colCells, cellToNumeric, tbl1999]
  have havgB : averageColumn (colCells tbl2000 2) = some 6 := by
    simp [averageColumn, colCells, cellToNumeric, tbl2000]
  refine ⟨?_, ?_, ?_⟩
  · exact (year_label_parse_cases tbl1999 2 (by decide) (by decide)).1 4
      (by decide) (by decide) havgA
  · exact (year_label_parse_cases tbl2000 2 (by decide) (by decide)).2.1 6
      (by decide) (by decide) havgB
  · exact (year_label_parse_cases tblAbc 2 (by decide) (by decide)).2.2
      (by decide)

/-- C6: a descriptive column (index below `yearStartIndex`) always gets an
empty summary-row cell, is never averaged, and contributes no record, even
when its label parses as a base-10 integer. -/
theorem descriptive_column_untouched (t : Table) (i : Nat)
    (h : i < t.columns.length)
    (hlt : i < start_col_index_for_years t.columns) :
    (summaryRow t).getD i (Cell.num 0) = Cell.empty ∧
      colOutcome t (start_col_index_for_years t.columns) i
        (t.columns.getD i "") = (none, none) := by
  refine ⟨?_, colOutcome_of_lt t _ i _ hlt⟩
  exact cell_empty_of_all_none t i h
    (allOccurrences_none_of_desc t (start_col_index_for_years t.columns) i h hlt)

/-- Concrete table whose first, descriptive column is labeled by an
integer. -/
def tblDesc : Table :=
  ⟨["2000", "day", "2001"], [[Cell.num 5, Cell.num 6, Cell.num 7]]⟩

/-- Witness for C6: the integer-labeled column at index 0 (before the
marker at index 1) gets an empty cell and no record. -/
theorem descriptive_column_untouched_witness :
    (summaryRow tblDesc).getD 0 (Cell.num 0) = Cell.empty ∧
      colOutcome tblDesc (start_col_index_for_years tblDesc.columns) 0
        (tblDesc.columns.getD 0 "") = (none, none) :=
  descriptive_column_untouched tblDesc 0 (by decide) (by decide)

/-! ### File-processor frame property -/

/-- C7: processing appends exactly one summary row as the new final row
and leaves the column order and all pre-existing rows unchanged. -/
theorem augmented_table_frame (t : Table) :
    (processFile t).1.columns = t.columns ∧
      (processFile t).1.rows.length = t.rows.length + 1 ∧
      (processFile t).1.rows.take t.rows.length = t.rows ∧
      (processFile t).1.rows.getLast? = some (summaryRow t) := by
  refine ⟨rfl, ?_, ?_, ?_⟩
  · show (t.rows ++ [summaryRow t]).length = t.rows.length + 1
    simp
  · show (t.rows ++ [summaryRow t]).take t.rows.length = t.rows
    exact List.take_left t.rows [summaryRow t]
  · exact List.getLast?_concat t.rows

/-! ### Batch aggregator properties -/

/-- A file whose read or write raises leaves the batch state untouched. -/
theorem batchStep_failing (st : BatchState) (f : BatchFile)
    (hf : f.content = none ∨ f.writeOk = false) : batchStep st f = st := by
  rw [batchStep]
  split
  · cases hc : f.content with
    | none => rfl
    | some t =>
      rcases hf with hr | hw
      · rw [hc] at hr; exact Option.noConfusion hr
      · simp [hw]
  · rfl

/-- C8: a file whose read or write raises contributes nothing — no output,
no records — and the rest of the batch (before and after it) is exactly as
if the file were absent; the exception never escapes the loop. -/
theorem failing_file_dropped (xs ys : List BatchFile) (f : BatchFile)
    (hf : f.content = none ∨ f.writeOk = false) :
    runBatch (xs ++ f :: ys) = runBatch (xs ++ ys) := by
  rw [runBatch, runBatch, List.foldl_append, List.foldl_append,
    List.foldl_cons, batchStep_failing _ f hf]

/-- A well-formed one-column-of-years file used by the batch witnesses. -/
def goodFile : BatchFile :=
  ⟨"good.csv", some ⟨["x", "day", "2000"],
    [[Cell.empty, Cell.empty, Cell.num 6]]⟩, true⟩

/-- A file whose reader raises. -/
def badFile : BatchFile := ⟨"bad.csv", none, true⟩

/-- Witness for C8: with one well-formed file and one failing file, the
batch result equals that of the well-formed file alone. -/
theorem failing_file_dropped_witness :
    runBatch [goodFile, badFile] = runBatch [goodFile] :=
  failing_file_dropped [goodFile] [] badFile (Or.inl rfl)

/-- C9: the aggregate summary file exists iff the accumulated record list
is non-empty; when written it carries the fixed name, the four fixed
columns, and one row per record in accumulation order. -/
theorem summary_file_iff_records (files : List BatchFile) :
    ((runBatch files).2 = [] → batchSummaryFile files = none) ∧
      ((runBatch files).2 ≠ [] →
        batchSummaryFile files =
          some (summaryFileName,
            ⟨summaryColumns, (runBatch files).2.map globalRecordRow⟩)) := by
  constructor
  · intro h
    simp [batchSummaryFile, h]
  · intro h
    rw [batchSummaryFile]
    simp only [List.isEmpty_iff]
    rw [if_neg h]

/-- Witness for C9: the empty batch yields no summary file, and a batch
with one record-producing file yields the fixed-name summary file. -/
theorem summary_file_iff_records_witness :
    batchSummaryFile [] = none ∧
      batchSummaryFile [goodFile] =
        some (summaryFileName,
          ⟨summaryColumns, (runBatch [goodFile]).2.map globalRecordRow⟩) := by
  constructor
  · exact (summary_file_iff_records []).1 rfl
  · refine (summary_file_iff_records [goodFile]).2 ?_
    decide

/-! ### Python `int` label parsing -/

theorem digit_toNat_ge (c : Char) (h : c.isDigit = true) : 48 ≤ c.toNat := by
  simp only [Char.isDigit, Bool.and_eq_true, decide_eq_true_eq] at h
  obtain ⟨h1, _⟩ := h
  have h2 := UInt32.le_def.mp h1
  have h3 := BitVec.le_def.mp h2
  simpa [Char.toNat, UInt32.toNat] using h3

theorem digit_not_space (c : Char) (h : c.isDigit = true) :
    isPySpace c = false := by
  have h48 := digit_toNat_ge c h
  simp only [isPySpace, Bool.or_eq_false_iff, decide_eq_false_iff_not]
  omega

theorem digit_ne_plus (c : Char) (h : c.isDigit = true) : ¬ (c = '+') := by
  have h48 := digit_toNat_ge c h
  intro hc
  subst hc
  exact absurd h48 (by decide)

theorem digit_ne_minus (c : Char) (h : c.isDigit = true) : ¬ (c = '-') := by
  have h48 := digit_toNat_ge c h
  intro hc
  subst hc
  exact absurd h48 (by decide)

theorem dropPySpace_append_all (w l : List Char)
    (hw : ∀ c ∈ w, isPySpace c = true) :
    dropPySpace (w ++ l) = dropPySpace l := by
  rw [dropPySpace, List.dropWhile_append]
  have hx : w.dropWhile isPySpace = [] := by
    rw [List.dropWhile_eq_nil_iff]
    intro x hx
    exact (hw x hx)
  simp [hx, dropPySpace]

theorem dropPySpace_cons_not (c : Char) (l : List Char)
    (hc : isPySpace c = false) : dropPySpace (c :: l) = c :: l := by
  rw [dropPySpace, List.dropWhile_cons_of_neg]
  simp [hc]

theorem parseDigits_all (ds : List Char) (hne : ds ≠ [])
    (hd : ∀ c ∈ ds, c.isDigit = true) :
    parseDigits ds = some (digitsToNat ds) := by
  have hcond : (!ds.isEmpty && ds.all Char.isDigit) = true := by
    rw [Bool.and_eq_true]
    constructor
    · simp [List.isEmpty_iff, hne]
    · rw [List.all_eq_true]; exact hd
  rw [parseDigits, if_pos hcond]

/-- Whitespace stripping on both ends removes exactly the surrounding
whitespace of a well-formed signed decimal literal. -/
theorem trim_structured (w1 w2 sgn ds : List Char)
    (hw1 : ∀ c ∈ w1, isPySpace c = true)
    (hw2 : ∀ c ∈ w2, isPySpace c = true)
    (hs : sgn = [] ∨ sgn = ['+'] ∨ sgn = ['-'])
    (hne : ds ≠ [])
    (hd : ∀ c ∈ ds, c.isDigit = true) :
    (dropPySpace ((dropPySpace (w1 ++ (sgn ++ (ds ++ w2)))).reverse)).reverse
      = sgn ++ ds := by
  have h1 : dropPySpace (w1 ++ (sgn ++ (ds ++ w2))) = sgn ++ (ds ++ w2) := by
    rw [dropPySpace_append_all w1 _ hw1]
    rcases hs with h | h | h <;> subst h
    · obtain ⟨d, ds', rfl⟩ := List.exists_cons_of_ne_nil hne
      rw [List.nil_append]
      exact dropPySpace_cons_not d _
        (digit_not_space d (hd d (List.mem_cons_self d ds')))
    · exact dropPySpace_cons_not '+' _ (by decide)
    · exact dropPySpace_cons_not '-' _ (by decide)
  rw [h1]
  have h2 : (sgn ++ (ds ++ w2)).reverse =
      w2.reverse ++ (ds.reverse ++ sgn.reverse) := by
    rw [List.reverse_append, List.reverse_append, List.append_assoc]
  rw [h2, dropPySpace_append_all w2.reverse _ (by
    intro c hc
    exact hw2 c (List.mem_reverse.mp hc))]
  obtain ⟨d', l', hrev⟩ := List.exists_cons_of_ne_nil
    (show ds.reverse ≠ [] by simpa using hne)
  have hd' : d'.isDigit = true := by
    have : d' ∈ ds.reverse := by rw [hrev]; exact List.mem_cons_self d' l'
    exact hd d' (List.mem_reverse.mp this)
  rw [hrev, List.cons_append, dropPySpace_cons_not d' _ (digit_not_space d' hd'),
    ← List.cons_append, ← hrev, List.reverse_append, List.reverse_reverse,
    List.reverse_reverse]

/-- `int()` accepts a decimal digit string with optional surrounding
whitespace and an optional leading sign, yielding the signed value. -/
theorem pyIntCore_structured (w1 w2 sgn ds : List Char)
    (hw1 : ∀ c ∈ w1, isPySpace c = true)
    (hw2 : ∀ c ∈ w2, isPySpace c = true)
    (hs : sgn = [] ∨ sgn = ['+'] ∨ sgn = ['-'])
    (hne : ds ≠ [])
    (hd : ∀ c ∈ ds, c.isDigit = true) :
    pyIntCore (w1 ++ (sgn ++ (ds ++ w2))) =
      some (if sgn = ['-'] then -(digitsToNat ds : Int)
            else (digitsToNat ds : Int)) := by
  have htrim := trim_structured w1 w2 sgn ds hw1 hw2 hs hne hd
  rw [pyIntCore]
  rw [htrim]
  rcases hs with h | h | h <;> subst h
  · obtain ⟨d, ds', rfl⟩ := List.exists_cons_of_ne_nil hne
    rw [List.nil_append]
    have hdd : d.isDigit = true := hd d (List.mem_cons_self d ds')
    simp only [if_neg (digit_ne_plus d hdd), if_neg (digit_ne_minus d hdd)]
    rw [parseDigits_all _ hne hd]
    simp
  · rw [List.cons_append, List.nil_append]
    simp only [reduceIte]
    rw [parseDigits_all _ hne hd]
    simp
  · rw [List.cons_append, List.nil_append]
    simp only [reduceIte]
    rw [parseDigits_all _ hne hd]
    simp

/-- Table whose year labels are a negative and a zero year. -/
def tblSigned : Table :=
  ⟨["x", "day", "-8", "0"],
   [[Cell.num 1, Cell.num 2, Cell.num 3, Cell.num 4]]⟩

/-- C10: year labels are parsed with Python `int` semantics — optional
surrounding whitespace and an optional leading sign around decimal digits
are accepted — so zero and negative years are valid: they are averaged and
get a computed leap-year flag instead of being skipped. -/
theorem year_label_int_semantics :
    (∀ w1 w2 sgn ds : List Char,
      (∀ c ∈ w1, isPySpace c = true) →
      (∀ c ∈ w2, isPySpace c = true) →
      (sgn = [] ∨ sgn = ['+'] ∨ sgn = ['-']) →
      ds ≠ [] →
      (∀ c ∈ ds, c.isDigit = true) →
      pyIntCore (w1 ++ (sgn ++ (ds ++ w2))) =
        some (if sgn = ['-'] then -(digitsToNat ds : Int)
              else (digitsToNat ds : Int))) ∧
      pyInt " 2000 " = some 2000 ∧ pyInt "+2000" = some 2000 ∧
      pyInt "-5" = some (-5) ∧ pyInt "0" = some 0 ∧
      fileRecords tblSigned (start_col_index_for_years tblSigned.columns) =
        [⟨-8, 3, true⟩, ⟨0, 4, true⟩] := by
  refine ⟨fun w1 w2 sgn ds hw1 hw2 hs hne hd =>
      pyIntCore_structured w1 w2 sgn ds hw1 hw2 hs hne hd,
    by decide, by decide, by decide, by decide, ?_⟩
  have hs : start_col_index_for_years tblSigned.columns = 2 := by decide
  have h8 : pyInt "-8" = some (-8) := by decide
  have h0 : pyInt "0" = some 0 := by decide
  have hc8 : List.count "-8" ["x", "day", "-8", "0"] = 1 := by decide
  have hc0 : List.count "0" ["x", "day", "-8", "0"] = 1 := by decide
  have hidx8 : List.indexOf "-8" ["x", "day", "-8", "0"] = 2 := by decide
  have hidx0 : List.indexOf "0" ["x", "day", "-8", "0"] = 3 := by decide
  have hl8 : is_leap_year (-8) = true := by decide
  have hl0 : is_leap_year 0 = true := by decide
  have havg8 : averageColumn (colCells tblSigned 2) = some 3 := by
    simp [averageColumn, colCells, cellToNumeric, tblSigned]
  have havg0 : averageColumn (colCells tblSigned 3) = some 4 := by
    simp [averageColumn, colCells, cellToNumeric, tblSigned]
  have havg8l : averageColumn (colCells
      ({ columns := ["x", "day", "-8", "0"],
         rows := [[Cell.num 1, Cell.num 2, Cell.num 3, Cell.num 4]] } : Table) 2)
      = some 3 := havg8
  have havg0l : averageColumn (colCells
      ({ columns := ["x", "day", "-8", "0"],
         rows := [[Cell.num 1, Cell.num 2, Cell.num 3, Cell.num 4]] } : Table) 3)
      = some 4 := havg0
  rw [hs]
  simp only [fileRecords, tblSigned, List.enum, List.enumFrom, List.filterMap_cons]
  simp [colOutcome, dfGetCol, h8, h0, hc8, hc0, hidx8, hidx0, hl8, hl0,
    havg8l, havg0l]

/-- Witness for C10: the general signed-label acceptance applied to the
concrete label characters of " -5". -/
theorem year_label_int_semantics_witness :
    pyIntCore ([' '] ++ (['-'] ++ (['5'] ++ []))) =
      some (if ['-'] = ['-'] then -(digitsToNat ['5'] : Int)
            else (digitsToNat ['5'] : Int)) :=
  year_label_int_semantics.1 [' '] [] ['-'] ['5']
    (by decide) (by decide) (Or.inr (Or.inr rfl)) (by decide) (by decide)

end Precip
